import Mathlib

/-!
Verification of the take-home-pay calculator (calc.py).

All monetary amounts are in thousands of rupees, annual unless noted;
take-home pay is monthly. Python float arithmetic is modelled exactly over
the rationals, and math.floor is Int.floor (rounding toward negative
infinity). The employment classification is a boolean, true for employee
and false for consultant, as in the source.
-/

namespace Calc

/-- EPF contribution rate (module constant EMPLOYEE_PF_RATE). -/
def EMPLOYEE_PF_RATE : ℚ := 0.2561

/-- Flat professional tax, thousands per year (module constant PROFESSIONAL_TAX). -/
def PROFESSIONAL_TAX : ℚ := 2.5

/-- Presumptive taxation rate for consultants (module constant PRESUMPTIVE_RATE). -/
def PRESUMPTIVE_RATE : ℚ := 0.5

/-- Fixed deduction available to employees (module constant EMPLOYEE_TAX_DEDUCTION). -/
def EMPLOYEE_TAX_DEDUCTION : ℚ := 160

/-- First slab boundary, thousands (module constant SLAB_1). -/
def SLAB_1 : ℚ := 250

/-- Second slab boundary, thousands (module constant SLAB_2). -/
def SLAB_2 : ℚ := 500

/-- Third slab boundary, thousands (module constant SLAB_3). -/
def SLAB_3 : ℚ := 1000

/-- Converts lakhs to thousands (function lakh in calc.py). -/
def lakh (amount : ℚ) : ℚ := amount * 100

/-- Income tax due under slab 1 (function income_tax_slab_1 in calc.py). -/
def income_tax_slab_1 (income : ℚ) : ℚ :=
  if income ≤ SLAB_1 then 0
  else ((if income > SLAB_2 then SLAB_2 else income) - SLAB_1) * 0.05

/-- Income tax due under slab 2 (function income_tax_slab_2 in calc.py). -/
def income_tax_slab_2 (income : ℚ) : ℚ :=
  if income ≤ SLAB_2 then 0
  else ((if income > SLAB_3 then SLAB_3 else income) - SLAB_2) * 0.2

/-- Income tax due under slab 3 (function income_tax_slab_3 in calc.py). -/
def income_tax_slab_3 (income : ℚ) : ℚ :=
  if income ≤ SLAB_3 then 0
  else (income - SLAB_3) * 0.3

/-- Aggregate income tax (function income_tax_for in calc.py). The warning
printed for income at or above one crore is console output only and does not
change the returned value, so it is not modelled. -/
def income_tax_for (income : ℚ) : ℚ :=
  if income ≤ 500 then 0
  else
    let tax := income_tax_slab_1 income + income_tax_slab_2 income + income_tax_slab_3 income
    let cess := tax * 0.04
    let surcharge := if income ≥ lakh 50 then tax * 0.1 else 0
    tax + cess + surcharge

/-- Income tax plus professional tax (function income_and_professional_tax_for). -/
def income_and_professional_tax_for (income : ℚ) : ℚ :=
  income_tax_for income + PROFESSIONAL_TAX

/-- Total tax for a classification (function total_tax_for in calc.py). -/
def total_tax_for (income : ℚ) (is_employee : Bool) : ℚ :=
  if is_employee then income_and_professional_tax_for (income - EMPLOYEE_TAX_DEDUCTION)
  else income_and_professional_tax_for (income * PRESUMPTIVE_RATE)

/-- Provident fund contribution (function pf_for in calc.py): salary capped at 15K. -/
def pf_for (income : ℚ) : ℚ :=
  min income 15 * EMPLOYEE_PF_RATE

/-- Monthly take-home pay (function take_home in calc.py); math.floor rounds
toward negative infinity. -/
def take_home (income : ℚ) (is_employee : Bool) : ℤ :=
  let tax := total_tax_for income is_employee
  let pf := if is_employee then pf_for income else 0
  ⌊(income - tax - pf) / 12⌋

/-- The taxable income each branch of total_tax_for passes to income_tax_for:
income minus the deduction for an employee, income times the presumptive rate
for a consultant. -/
def taxable_income (income : ℚ) (is_employee : Bool) : ℚ :=
  if is_employee then income - EMPLOYEE_TAX_DEDUCTION else income * PRESUMPTIVE_RATE

/-- Rounding toward zero, as the words of the spec describe the division by 12
(floor for non-negative arguments, ceiling for negative ones). -/
def truncTowardZero (q : ℚ) : ℤ :=
  if 0 ≤ q then ⌊q⌋ else ⌈q⌉

/-- Pointwise continuity from the right, specialised to the jump of
income_tax_for at a boundary point b: the difference at b + d tends to 0 as d
tends to 0 from above. -/
def rightContinuousAt (b : ℚ) : Prop :=
  ∀ ε : ℚ, 0 < ε → ∃ δ : ℚ, 0 < δ ∧
    ∀ d : ℚ, 0 < d → d < δ → |income_tax_for (b + d) - income_tax_for b| < ε

theorem income_tax_slab_1_nonneg (t : ℚ) : 0 ≤ income_tax_slab_1 t := by
  unfold income_tax_slab_1 SLAB_1 SLAB_2
  split_ifs <;> linarith

theorem income_tax_slab_2_nonneg (t : ℚ) : 0 ≤ income_tax_slab_2 t := by
  unfold income_tax_slab_2 SLAB_2 SLAB_3
  split_ifs <;> linarith

theorem income_tax_slab_3_nonneg (t : ℚ) : 0 ≤ income_tax_slab_3 t := by
  unfold income_tax_slab_3 SLAB_3
  split_ifs <;> linarith

theorem income_tax_slab_1_mono {a b : ℚ} (h : a ≤ b) :
    income_tax_slab_1 a ≤ income_tax_slab_1 b := by
  unfold income_tax_slab_1 SLAB_1 SLAB_2
  split_ifs <;> linarith

theorem income_tax_slab_2_mono {a b : ℚ} (h : a ≤ b) :
    income_tax_slab_2 a ≤ income_tax_slab_2 b := by
  unfold income_tax_slab_2 SLAB_2 SLAB_3
  split_ifs <;> linarith

theorem income_tax_slab_3_mono {a b : ℚ} (h : a ≤ b) :
    income_tax_slab_3 a ≤ income_tax_slab_3 b := by
  unfold income_tax_slab_3 SLAB_3
  split_ifs <;> linarith

theorem income_tax_slab_1_lip {a b : ℚ} (h : a ≤ b) :
    income_tax_slab_1 b - income_tax_slab_1 a ≤ 0.05 * (b - a) := by
  unfold income_tax_slab_1 SLAB_1 SLAB_2
  split_ifs <;> linarith

theorem income_tax_slab_2_lip {a b : ℚ} (h : a ≤ b) :
    income_tax_slab_2 b - income_tax_slab_2 a ≤ 0.2 * (b - a) := by
  unfold income_tax_slab_2 SLAB_2 SLAB_3
  split_ifs <;> linarith

theorem income_tax_slab_3_lip {a b : ℚ} (h : a ≤ b) :
    income_tax_slab_3 b - income_tax_slab_3 a ≤ 0.3 * (b - a) := by
  unfold income_tax_slab_3 SLAB_3
  split_ifs <;> linarith

theorem income_tax_slab_1_le (t : ℚ) : income_tax_slab_1 t ≤ 0.05 * max t 0 := by
  unfold income_tax_slab_1 SLAB_1 SLAB_2
  rcases le_total t 0 with h0 | h0 <;>
    simp [max_eq_left, max_eq_right, h0] <;> split_ifs <;> linarith

theorem income_tax_slab_2_le (t : ℚ) : income_tax_slab_2 t ≤ 0.2 * max t 0 := by
  unfold income_tax_slab_2 SLAB_2 SLAB_3
  rcases le_total t 0 with h0 | h0 <;>
    simp [max_eq_left, max_eq_right, h0] <;> split_ifs <;> linarith

theorem income_tax_slab_3_le (t : ℚ) : income_tax_slab_3 t ≤ 0.3 * max t 0 := by
  unfold income_tax_slab_3 SLAB_3
  rcases le_total t 0 with h0 | h0 <;>
    simp [max_eq_left, max_eq_right, h0] <;> split_ifs <;> linarith

/-- Below the rebate threshold the aggregate income tax is zero. -/
theorem income_tax_for_of_le (t : ℚ) (h : t ≤ 500) : income_tax_for t = 0 := by
  unfold income_tax_for
  simp [h]

/-- Above the rebate threshold the aggregate income tax is the slab sum with
cess, plus a surcharge when income reaches 5000. -/
theorem income_tax_for_of_gt (t : ℚ) (h : 500 < t) :
    income_tax_for t =
      (income_tax_slab_1 t + income_tax_slab_2 t + income_tax_slab_3 t)
      + (income_tax_slab_1 t + income_tax_slab_2 t + income_tax_slab_3 t) * 0.04
      + (if 5000 ≤ t then
          (income_tax_slab_1 t + income_tax_slab_2 t + income_tax_slab_3 t) * 0.1
        else 0) := by
  unfold income_tax_for lakh
  rw [if_neg (by linarith)]
  norm_num [ge_iff_le]

theorem income_tax_for_nonneg (t : ℚ) : 0 ≤ income_tax_for t := by
  rcases le_or_lt t 500 with h | h
  · rw [income_tax_for_of_le t h]
  · rw [income_tax_for_of_gt t h]
    have h1 := income_tax_slab_1_nonneg t
    have h2 := income_tax_slab_2_nonneg t
    have h3 := income_tax_slab_3_nonneg t
    split_ifs <;> linarith

theorem income_tax_for_mono {a b : ℚ} (h : a ≤ b) :
    income_tax_for a ≤ income_tax_for b := by
  rcases le_or_lt a 500 with ha | ha
  · rw [income_tax_for_of_le a ha]
    exact income_tax_for_nonneg b
  · have hb : 500 < b := lt_of_lt_of_le ha h
    rw [income_tax_for_of_gt a ha, income_tax_for_of_gt b hb]
    have m1 := income_tax_slab_1_mono h
    have m2 := income_tax_slab_2_mono h
    have m3 := income_tax_slab_3_mono h
    have n1 := income_tax_slab_1_nonneg a
    have n2 := income_tax_slab_2_nonneg a
    have n3 := income_tax_slab_3_nonneg a
    split_ifs with hsa hsb
    · linarith
    · exact absurd (le_trans hsa h) hsb
    · linarith
    · linarith

/-- Upper bound on the aggregate income tax: at most 62.7 percent of the
positive part of income (55 percent slab bound, cess and surcharge factor). -/
theorem income_tax_for_le (t : ℚ) : income_tax_for t ≤ 0.627 * max t 0 := by
  have hm : 0 ≤ max t 0 := le_max_right t 0
  rcases le_or_lt t 500 with h | h
  · rw [income_tax_for_of_le t h]; linarith
  · rw [income_tax_for_of_gt t h]
    have b1 := income_tax_slab_1_le t
    have b2 := income_tax_slab_2_le t
    have b3 := income_tax_slab_3_le t
    have n1 := income_tax_slab_1_nonneg t
    have n2 := income_tax_slab_2_nonneg t
    have n3 := income_tax_slab_3_nonneg t
    split_ifs <;> linarith

/-- Between the rebate threshold and the surcharge threshold the aggregate
income tax grows at most 57.2 percent as fast as income. -/
theorem income_tax_for_lip_mid {a b : ℚ} (ha : 500 < a) (h : a ≤ b) (hb : b < 5000) :
    income_tax_for b - income_tax_for a ≤ 0.572 * (b - a) := by
  rw [income_tax_for_of_gt a ha, income_tax_for_of_gt b (lt_of_lt_of_le ha h)]
  rw [if_neg (by linarith), if_neg (by linarith)]
  have l1 := income_tax_slab_1_lip h
  have l2 := income_tax_slab_2_lip h
  have l3 := income_tax_slab_3_lip h
  linarith

/-- Above the surcharge threshold the aggregate income tax grows at most 62.7
percent as fast as income. -/
theorem income_tax_for_lip_high {a b : ℚ} (ha : 5000 ≤ a) (h : a ≤ b) :
    income_tax_for b - income_tax_for a ≤ 0.627 * (b - a) := by
  rw [income_tax_for_of_gt a (by linarith), income_tax_for_of_gt b (by linarith)]
  rw [if_pos ha, if_pos (le_trans ha h)]
  have l1 := income_tax_slab_1_lip h
  have l2 := income_tax_slab_2_lip h
  have l3 := income_tax_slab_3_lip h
  linarith

theorem pf_for_nonneg {t : ℚ} (h : 0 ≤ t) : 0 ≤ pf_for t := by
  unfold pf_for EMPLOYEE_PF_RATE
  have : (0:ℚ) ≤ min t 15 := le_min h (by norm_num)
  nlinarith

theorem pf_for_le (t : ℚ) : pf_for t ≤ 3.8415 := by
  unfold pf_for EMPLOYEE_PF_RATE
  have : min t 15 ≤ 15 := min_le_right t 15
  nlinarith

theorem pf_for_lip {a b : ℚ} (h : a ≤ b) : pf_for b - pf_for a ≤ 0.2561 * (b - a) := by
  unfold pf_for EMPLOYEE_PF_RATE
  rcases le_total a 15 with ha | ha <;> rcases le_total b 15 with hb | hb <;>
    simp [min_eq_left, min_eq_right, ha, hb] <;> linarith

/-- The two branches of total_tax_for both add the professional tax to the
income tax of the taxable income. -/
theorem total_tax_for_eq (c : ℚ) (e : Bool) :
    total_tax_for c e = income_tax_for (taxable_income c e) + PROFESSIONAL_TAX := by
  cases e <;> rfl

/-- Unfolding of take_home as a floor of the net annual amount over 12. -/
theorem take_home_eq (c : ℚ) (e : Bool) :
    take_home c e =
      ⌊(c - total_tax_for c e - (if e then pf_for c else 0)) / 12⌋ := rfl

theorem total_tax_for_le (c : ℚ) (hc : 0 ≤ c) (e : Bool) :
    total_tax_for c e ≤ 0.627 * c + 2.5 := by
  rw [total_tax_for_eq]
  unfold PROFESSIONAL_TAX
  have hb := income_tax_for_le (taxable_income c e)
  have hmax : max (taxable_income c e) 0 ≤ c := by
    apply max_le _ hc
    cases e
    · simp [taxable_income, PRESUMPTIVE_RATE]
      linarith
    · simp [taxable_income, EMPLOYEE_TAX_DEDUCTION]
  nlinarith

/-- Linear lower bound on monthly take-home pay, used for termination of the
inverse search. -/
theorem take_home_lower (c : ℚ) (hc : 0 ≤ c) (e : Bool) :
    (0.373 * c - 6.3415) / 12 - 1 < (take_home c e : ℚ) := by
  rw [take_home_eq]
  have hfl := Int.sub_one_lt_floor ((c - total_tax_for c e - (if e then pf_for c else 0)) / 12)
  have htax := total_tax_for_le c hc e
  have hpf : (if e then pf_for c else 0) ≤ 3.8415 := by
    cases e
    · simp; norm_num
    · simp [pf_for_le]
  have hnet : 0.373 * c - 6.3415 ≤ c - total_tax_for c e - (if e then pf_for c else 0) := by
    linarith
  have hdiv : (0.373 * c - 6.3415) / 12 ≤
      (c - total_tax_for c e - (if e then pf_for c else 0)) / 12 := by
    apply div_le_div_of_nonneg_right hnet ?_ |>.trans_eq ?_ <;> norm_num
  linarith

/-- The take-home amount eventually reaches every target, so the while loop of
ctc_for_take_home_pay terminates: some count of increments from the initial
CTC of 1 satisfies the loop exit condition. -/
theorem take_home_reaches (desired : ℚ) (e : Bool) :
    ∃ n : ℕ, desired ≤ (take_home ((1 + n : ℕ) : ℚ) e : ℚ) := by
  obtain ⟨n, hn⟩ := exists_nat_ge ((12 * (desired + 1) + 6.3415) / 0.373)
  refine ⟨n, ?_⟩
  have hc : (0:ℚ) ≤ ((1 + n : ℕ) : ℚ) := by positivity
  have hlow := take_home_lower ((1 + n : ℕ) : ℚ) hc e
  have hcast : ((1 + n : ℕ) : ℚ) = 1 + (n : ℚ) := by push_cast; ring
  have hn2 : 12 * (desired + 1) + 6.3415 ≤ (n : ℚ) * 0.373 :=
    (div_le_iff₀ (by norm_num)).mp hn
  have h12 : desired + 1 ≤ (0.373 * ((1 + n : ℕ) : ℚ) - 6.3415) / 12 := by
    rw [le_div_iff₀ (by norm_num : (0:ℚ) < 12), hcast]
    linarith
  linarith

/-- Inverse search (function ctc_for_take_home_pay in calc.py): starting from
a CTC of 1 and incrementing by 1, return the first CTC whose take-home pay is
at least the desired amount. The while loop is rendered as the least number of
increments satisfying the exit condition; take_home_reaches shows one exists. -/
def ctc_for_take_home_pay (desired : ℚ) (e : Bool) : ℕ :=
  1 + Nat.find (take_home_reaches desired e)

/-- Value of the aggregate income tax just above the rebate boundary 500: the
full slab-1 amount plus cess appears at once. -/
theorem income_tax_just_above_500 {d : ℚ} (h0 : 0 < d) (h1 : d ≤ 500) :
    income_tax_for (500 + d) = 13 + 0.208 * d := by
  rw [income_tax_for_of_gt _ (by linarith), if_neg (by linarith)]
  unfold income_tax_slab_1 income_tax_slab_2 income_tax_slab_3 SLAB_1 SLAB_2 SLAB_3
  split_ifs <;> linarith

/-- Value of the aggregate income tax just above the slab boundary 1000. -/
theorem income_tax_just_above_1000 {d : ℚ} (h0 : 0 < d) (h1 : d ≤ 1000) :
    income_tax_for (1000 + d) = 117 + 0.312 * d := by
  rw [income_tax_for_of_gt _ (by linarith), if_neg (by linarith)]
  unfold income_tax_slab_1 income_tax_slab_2 income_tax_slab_3 SLAB_1 SLAB_2 SLAB_3
  split_ifs <;> linarith

theorem income_tax_at_1000 : income_tax_for 1000 = 117 := by
  norm_num [income_tax_for, income_tax_slab_1, income_tax_slab_2, income_tax_slab_3,
    lakh, SLAB_1, SLAB_2, SLAB_3]

/-- C4: for every income at most 500 (thousands), the aggregate income tax is
exactly 0, the full rebate override, even where the slab-1 formula alone would
be positive. -/
theorem income_tax_rebate_zero (income : ℚ) (h : income ≤ 500) :
    income_tax_for income = 0 :=
  income_tax_for_of_le income h

/-- Witness for C4 at income 400, where the slab-1 formula alone gives 7.5 yet
the aggregate income tax is 0. -/
theorem income_tax_rebate_zero_witness :
    (400:ℚ) ≤ 500 ∧ income_tax_for 400 = 0 ∧ income_tax_slab_1 400 = 7.5 :=
  ⟨by norm_num, income_tax_rebate_zero 400 (by norm_num),
    by norm_num [income_tax_slab_1, SLAB_1, SLAB_2]⟩

/-- C5: for every income above 500, the aggregate income tax equals the slab
sum S plus a cess of 4 percent of S plus a surcharge of 10 percent of S when
income is at least 5000 and nothing otherwise; in particular the tax on an
income of 600 is 33.8. -/
theorem income_tax_decomposition :
    (∀ income : ℚ, 500 < income →
      income_tax_for income =
        (income_tax_slab_1 income + income_tax_slab_2 income + income_tax_slab_3 income)
        + 0.04 * (income_tax_slab_1 income + income_tax_slab_2 income + income_tax_slab_3 income)
        + (if 5000 ≤ income then
            0.1 * (income_tax_slab_1 income + income_tax_slab_2 income + income_tax_slab_3 income)
          else 0))
    ∧ income_tax_for 600 = 33.8 := by
  constructor
  · intro income h
    rw [income_tax_for_of_gt income h]
    split_ifs <;> ring
  · norm_num [income_tax_for, income_tax_slab_1, income_tax_slab_2, income_tax_slab_3,
      lakh, SLAB_1, SLAB_2, SLAB_3]

/-- C6: the employee branch of total_tax_for applies the fixed deduction of 160
before the income tax and the consultant branch applies the presumptive rate of
0.5 before the income tax, and both branches then add the flat professional tax
of 2.5 after the income tax. -/
theorem total_tax_branches (income : ℚ) :
    total_tax_for income true = income_tax_for (income - 160) + 2.5
    ∧ total_tax_for income false = income_tax_for (0.5 * income) + 2.5 := by
  constructor
  · simp [total_tax_for, income_and_professional_tax_for, EMPLOYEE_TAX_DEDUCTION,
      PROFESSIONAL_TAX]
  · simp [total_tax_for, income_and_professional_tax_for, PRESUMPTIVE_RATE,
      PROFESSIONAL_TAX, mul_comm]

/-- C8: tax amounts are monotonically non-decreasing in income, both for the
aggregate income tax and for the total tax of each classification. -/
theorem tax_monotone (i1 i2 : ℚ) (h : i1 ≤ i2) :
    income_tax_for i1 ≤ income_tax_for i2
    ∧ ∀ e : Bool, total_tax_for i1 e ≤ total_tax_for i2 e := by
  refine ⟨income_tax_for_mono h, fun e => ?_⟩
  rw [total_tax_for_eq, total_tax_for_eq]
  have htx : taxable_income i1 e ≤ taxable_income i2 e := by
    cases e <;> simp [taxable_income, PRESUMPTIVE_RATE, EMPLOYEE_TAX_DEDUCTION] <;> linarith
  have := income_tax_for_mono htx
  linarith

/-- Witness for C8 at incomes 400 and 600 with the employee classification. -/
theorem tax_monotone_witness :
    (400:ℚ) ≤ 600 ∧ income_tax_for 400 ≤ income_tax_for 600
    ∧ total_tax_for 400 true ≤ total_tax_for 600 true :=
  ⟨by norm_num, (tax_monotone 400 600 (by norm_num)).1,
    (tax_monotone 400 600 (by norm_num)).2 true⟩

/-- C9: the provident fund contribution is min(income, 15) times 0.2561, hence
never above 3.8415 and equal to 3.8415 at income 20, and the provident fund
amount subtracted inside take_home for a consultant is 0. -/
theorem pf_spec (income : ℚ) :
    pf_for income = min income 15 * 0.2561
    ∧ pf_for income ≤ 3.8415
    ∧ pf_for 20 = 3.8415
    ∧ take_home income false = ⌊(income - total_tax_for income false - 0) / 12⌋ := by
  refine ⟨rfl, pf_for_le income, ?_, rfl⟩
  norm_num [pf_for, EMPLOYEE_PF_RATE]

/-- C1 counterexample: take-home pay is not non-decreasing in CTC. For the
consultant classification, the CTC 1000 (taxable income exactly 500, fully
rebated) yields a monthly take-home of 83, while the larger CTC 1001 yields
only 82, because crossing the rebate threshold makes the whole slab-1 tax and
cess due at once. -/
theorem take_home_not_mono_cex :
    (0:ℚ) ≤ 1000 ∧ (1000:ℚ) ≤ 1001 ∧ ¬(take_home 1000 false ≤ take_home 1001 false) := by
  refine ⟨by norm_num, by norm_num, ?_⟩
  have h1 : take_home 1000 false = 83 := by
    norm_num [take_home, total_tax_for, income_and_professional_tax_for, income_tax_for,
      income_tax_slab_1, income_tax_slab_2, income_tax_slab_3, pf_for, lakh,
      SLAB_1, SLAB_2, SLAB_3, EMPLOYEE_TAX_DEDUCTION, PROFESSIONAL_TAX,
      EMPLOYEE_PF_RATE, PRESUMPTIVE_RATE]
  have h2 : take_home 1001 false = 82 := by
    norm_num [take_home, total_tax_for, income_and_professional_tax_for, income_tax_for,
      income_tax_slab_1, income_tax_slab_2, income_tax_slab_3, pf_for, lakh,
      SLAB_1, SLAB_2, SLAB_3, EMPLOYEE_TAX_DEDUCTION, PROFESSIONAL_TAX,
      EMPLOYEE_PF_RATE, PRESUMPTIVE_RATE]
  rw [h1, h2]
  norm_num

/-- C1 (amended): take-home pay is non-decreasing in CTC whenever the two
taxable incomes stay in the same tax regime: both at most 500 (fully rebated),
both strictly between 500 and 5000 (cess but no surcharge), or both at least
5000 (cess and surcharge). Crossing the rebate threshold 500 or the surcharge
threshold 5000 can make take-home pay drop. -/
theorem take_home_mono_within_regime (e : Bool) (c1 c2 : ℚ) (h : c1 ≤ c2)
    (hreg : taxable_income c2 e ≤ 500
      ∨ (500 < taxable_income c1 e ∧ taxable_income c2 e < 5000)
      ∨ 5000 ≤ taxable_income c1 e) :
    take_home c1 e ≤ take_home c2 e := by
  rw [take_home_eq, take_home_eq]
  apply Int.floor_le_floor
  have htx : taxable_income c1 e ≤ taxable_income c2 e := by
    cases e <;> simp [taxable_income, PRESUMPTIVE_RATE, EMPLOYEE_TAX_DEDUCTION] <;> linarith
  have htax : income_tax_for (taxable_income c2 e) - income_tax_for (taxable_income c1 e)
      ≤ 0.627 * (taxable_income c2 e - taxable_income c1 e) := by
    rcases hreg with h500 | ⟨hm1, hm2⟩ | hs
    · rw [income_tax_for_of_le _ h500, income_tax_for_of_le _ (le_trans htx h500)]
      linarith
    · have := income_tax_for_lip_mid hm1 htx hm2
      linarith
    · exact income_tax_for_lip_high hs htx
  have hnet : c1 - total_tax_for c1 e - (if e then pf_for c1 else 0)
      ≤ c2 - total_tax_for c2 e - (if e then pf_for c2 else 0) := by
    rw [total_tax_for_eq, total_tax_for_eq]
    cases e with
    | true =>
      have hpf := pf_for_lip h
      have htd : taxable_income c2 true - taxable_income c1 true = c2 - c1 := by
        simp [taxable_income]
      rw [htd] at htax
      simp only [if_true]
      linarith
    | false =>
      have htd : taxable_income c2 false - taxable_income c1 false = 0.5 * (c2 - c1) := by
        simp [taxable_income, PRESUMPTIVE_RATE]; ring
      rw [htd] at htax
      simp only [Bool.false_eq_true, if_false]
      linarith
  linarith

/-- Witness for the amended C1: between CTCs 700 and 800 for an employee both
taxable incomes lie strictly between 500 and 5000, and take-home pay does not
decrease. -/
theorem take_home_mono_within_regime_witness :
    take_home 700 true ≤ take_home 800 true :=
  take_home_mono_within_regime true 700 800 (by norm_num)
    (Or.inr (Or.inl ⟨by norm_num [taxable_income, EMPLOYEE_TAX_DEDUCTION],
      by norm_num [taxable_income, EMPLOYEE_TAX_DEDUCTION]⟩))

/-- C2 counterexample: at income 0 with the employee classification the annual
net is -2.5, whose division by 12 truncated toward zero is 0, yet take_home
returns -1: the code floors toward negative infinity and the result is a
negative integer. -/
theorem take_home_trunc_cex :
    take_home 0 true = -1
    ∧ truncTowardZero ((0 - total_tax_for 0 true - pf_for 0) / 12) = 0 := by
  constructor
  · norm_num [take_home, total_tax_for, income_and_professional_tax_for, income_tax_for,
      income_tax_slab_1, income_tax_slab_2, income_tax_slab_3, pf_for, lakh,
      SLAB_1, SLAB_2, SLAB_3, EMPLOYEE_TAX_DEDUCTION, PROFESSIONAL_TAX,
      EMPLOYEE_PF_RATE, PRESUMPTIVE_RATE]
  · norm_num [truncTowardZero, total_tax_for, income_and_professional_tax_for, income_tax_for,
      income_tax_slab_1, income_tax_slab_2, income_tax_slab_3, pf_for, lakh,
      SLAB_1, SLAB_2, SLAB_3, EMPLOYEE_TAX_DEDUCTION, PROFESSIONAL_TAX,
      EMPLOYEE_PF_RATE, PRESUMPTIVE_RATE]

/-- C2 (amended): take_home is the floor of (income - total tax - provident
fund) / 12 rounded toward negative infinity, an integer that can be negative
for small incomes; whenever the annual net amount is non-negative the result
is a non-negative integer and coincides with truncation toward zero. -/
theorem take_home_floor_spec (income : ℚ) (e : Bool) :
    take_home income e =
      ⌊(income - total_tax_for income e - (if e then pf_for income else 0)) / 12⌋
    ∧ (0 ≤ income - total_tax_for income e - (if e then pf_for income else 0) →
        0 ≤ take_home income e
        ∧ take_home income e =
            truncTowardZero
              ((income - total_tax_for income e - (if e then pf_for income else 0)) / 12)) := by
  refine ⟨take_home_eq income e, fun h => ?_⟩
  have hq : 0 ≤ (income - total_tax_for income e - (if e then pf_for income else 0)) / 12 :=
    div_nonneg h (by norm_num)
  constructor
  · rw [take_home_eq]
    exact Int.floor_nonneg.mpr hq
  · rw [take_home_eq, truncTowardZero, if_pos hq]

/-- C3 counterexample: the aggregate income tax is not continuous at every one
of the boundaries 250, 500 and 1000: at 500 the difference from the right stays
above 13 however small the step, so it does not tend to 0. -/
theorem income_tax_not_continuous_cex :
    ¬ (rightContinuousAt 250 ∧ rightContinuousAt 500 ∧ rightContinuousAt 1000) := by
  rintro ⟨-, h500, -⟩
  obtain ⟨δ, hδ, hd⟩ := h500 1 (by norm_num)
  have hmin : (0:ℚ) < min δ 1 := lt_min hδ one_pos
  have hd0 : (0:ℚ) < min δ 1 / 2 := by linarith
  have hdδ : min δ 1 / 2 < δ := by
    have h1 : min δ 1 ≤ δ := min_le_left δ 1
    linarith
  have hd1 : min δ 1 / 2 ≤ 500 := by
    have h1 : min δ 1 ≤ 1 := min_le_right δ 1
    linarith
  have heval := income_tax_just_above_500 hd0 hd1
  have habs := hd (min δ 1 / 2) hd0 hdδ
  rw [heval, income_tax_for_of_le 500 (by norm_num)] at habs
  rw [abs_of_nonneg (by linarith)] at habs
  linarith

/-- C3 (amended): the aggregate income tax is right-continuous at the
boundaries 250 and 1000, but at 500 the difference from the right tends to 13,
a discontinuous jump produced by the rebate override, beyond the marginal-rate
change. -/
theorem income_tax_boundary_jumps :
    rightContinuousAt 250 ∧ rightContinuousAt 1000
    ∧ (∀ ε : ℚ, 0 < ε → ∃ δ : ℚ, 0 < δ ∧ ∀ d : ℚ, 0 < d → d < δ →
        |(income_tax_for (500 + d) - income_tax_for 500) - 13| < ε) := by
  refine ⟨?_, ?_, ?_⟩
  · intro ε hε
    refine ⟨250, by norm_num, fun d hd0 hdlt => ?_⟩
    rw [income_tax_for_of_le (250 + d) (by linarith), income_tax_for_of_le 250 (by norm_num)]
    simpa using hε
  · intro ε hε
    refine ⟨min ε 1, lt_min hε one_pos, fun d hd0 hdlt => ?_⟩
    have hd1 : d ≤ 1000 := by
      have h1 : min ε 1 ≤ 1 := min_le_right ε 1
      linarith
    have hdε : d < ε := lt_of_lt_of_le hdlt (min_le_left ε 1)
    rw [income_tax_just_above_1000 hd0 hd1, income_tax_at_1000]
    rw [abs_of_nonneg (by linarith)]
    linarith
  · intro ε hε
    refine ⟨min ε 1, lt_min hε one_pos, fun d hd0 hdlt => ?_⟩
    have hd1 : d ≤ 500 := by
      have h1 : min ε 1 ≤ 1 := min_le_right ε 1
      linarith
    have hdε : d < ε := lt_of_lt_of_le hdlt (min_le_left ε 1)
    rw [income_tax_just_above_500 hd0 hd1, income_tax_for_of_le 500 (by norm_num)]
    rw [abs_of_nonneg (by linarith)]
    linarith

/-- C7: the inverse search ctc_for_take_home_pay is total (its while loop
terminates for every target and classification, witnessed by the termination
proof take_home_reaches behind Nat.find) and returns the minimum integer CTC
of at least 1 whose monthly take-home pay reaches the target; every smaller
CTC of at least 1 falls short of the target. -/
theorem ctc_for_take_home_pay_minimal (desired : ℚ) (e : Bool) :
    1 ≤ ctc_for_take_home_pay desired e
    ∧ desired ≤ (take_home ((ctc_for_take_home_pay desired e : ℕ) : ℚ) e : ℚ)
    ∧ ∀ c : ℕ, 1 ≤ c → c < ctc_for_take_home_pay desired e →
        (take_home (c : ℚ) e : ℚ) < desired := by
  refine ⟨Nat.le_add_right 1 _, ?_, ?_⟩
  · have hs := Nat.find_spec (take_home_reaches desired e)
    simpa [ctc_for_take_home_pay] using hs
  · intro c hc1 hclt
    obtain ⟨m, rfl⟩ : ∃ m, c = 1 + m := ⟨c - 1, by omega⟩
    have hm : m < Nat.find (take_home_reaches desired e) := by
      unfold ctc_for_take_home_pay at hclt
      omega
    exact not_le.mp (Nat.find_min (take_home_reaches desired e) hm)

/-- C10: for every non-negative income, the monthly take-home pay of a
consultant is at least that of an employee at the same CTC. -/
theorem consultant_take_home_ge_employee (income : ℚ) (h : 0 ≤ income) :
    take_home income true ≤ take_home income false := by
  rw [take_home_eq, take_home_eq]
  apply Int.floor_le_floor
  have hpf : 0 ≤ pf_for income := pf_for_nonneg h
  have htax : income_tax_for (taxable_income income false)
      ≤ income_tax_for (taxable_income income true) := by
    rcases le_or_lt 320 income with h320 | h320
    · apply income_tax_for_mono
      simp [taxable_income, PRESUMPTIVE_RATE, EMPLOYEE_TAX_DEDUCTION]
      linarith
    · rw [income_tax_for_of_le _ (by simp [taxable_income, PRESUMPTIVE_RATE]; linarith),
        income_tax_for_of_le _ (by simp [taxable_income, EMPLOYEE_TAX_DEDUCTION]; linarith)]
  rw [total_tax_for_eq, total_tax_for_eq] at *
  simp only [if_true, Bool.false_eq_true, if_false]
  linarith

/-- Witness for C10 at a CTC of 1000: the employee takes home at most what the
consultant takes home. -/
theorem consultant_take_home_ge_employee_witness :
    (0:ℚ) ≤ 1000 ∧ take_home 1000 true ≤ take_home 1000 false :=
  ⟨by norm_num, consultant_take_home_ge_employee 1000 (by norm_num)⟩

end Calc
